import Mathlib

/-!
Verification of the iris-vote-secure-system decision core.

This file gives a shallow embedding of the similarity scorer
(`src/utils/faceVerification.ts`, the strict-voting variant which
`calculateMaximumSecurityFaceSimilarity` delegates to), the duplicate
enrollment guard (`src/utils/duplicateDetection.ts`), and the voter
authentication service (`src/services/authenticationService.ts`).

Modelling conventions:
* a JavaScript string is a `List Nat` of its UTF-16 code units
  (all data handled here is ASCII / base64 text);
* JavaScript numbers are modelled as exact rationals (`Rat`); the
  `0 / 0 = 0` convention of `Rat` diverges from the source's IEEE
  `0 / 0 = NaN` exactly on the degenerate validator-accepted blobs (an
  empty or shorter-than-30-character payload, or identically zero
  means/variances); the `...JS` refinement of the scorer below makes
  that corner explicit with `Option Rat` values, `none` standing for
  NaN, and agrees with the plain model wherever no zero denominator
  occurs;
* operator-facing template strings that interpolate numbers are
  represented by a small inductive type carrying the interpolated data,
  one constructor per distinct template in the source.
-/

/-- A JavaScript string, as the list of its UTF-16 code units. -/
abbrev Str := List Nat

/-- Code-unit list of a Lean string literal (used for ASCII literals). -/
def strOfString (s : String) : Str := s.data.map Char.toNat

/-- JS `String.prototype.indexOf`: first offset where `needle` occurs,
else `none` (JS returns `-1` there; callers only test against `-1`). -/
def indexOfStr (hay needle : Str) : Option Nat :=
  if needle.isPrefixOf hay then some 0
  else
    match hay with
    | [] => none
    | _ :: rest => (indexOfStr rest needle).map (· + 1)

/-- JS `String.prototype.includes`. -/
def includesStr (hay needle : Str) : Bool :=
  (indexOfStr hay needle).isSome

/-- JS `String.prototype.substring(start, stop)` (with `start <= stop`). -/
def substring (s : Str) (start stop : Nat) : Str :=
  (s.drop start).take (stop - start)

/-- Number of offsets `j` below both lengths with `a[j] = b[j]`
(the exact-character-match loops of the scorer). -/
def countMatches : Str → Str → Nat
  | a :: as, b :: bs => (if a = b then 1 else 0) + countMatches as bs
  | _, _ => 0

/-- The `data:image/` prefix tested by `isValidImage`. -/
def dataImagePrefix : Str := strOfString "data:image/"

/-- The `base64,` marker tested by `isValidImage` and `getBase64`. -/
def base64Marker : Str := strOfString "base64,"

/-- Validator `isValidImage` from `calculateStrictVotingFaceSimilarity`:
data-URL prefix, base64 marker, and total length strictly above 10000. -/
def isValidImage (data : Str) : Bool :=
  dataImagePrefix.isPrefixOf data && includesStr data base64Marker &&
    decide (data.length > 10000)

/-- Extractor `getBase64`: substring after the first `base64,` marker, or the
input itself when the marker is absent. -/
def getBase64 (dataUrl : Str) : Str :=
  match indexOfStr dataUrl base64Marker with
  | some i => dataUrl.drop (i + 7)
  | none => dataUrl

/-- One pass of the `analyzeImagePatterns` section loop over the listed
section indices, accumulating (total similarity, number of valid
sections); the loop breaks as soon as a section start reaches the
shorter payload length. -/
def patternGo (d1 d2 : Str) (sectionSize : Nat) : List Nat → Rat × Nat
  | [] => (0, 0)
  | i :: rest =>
    if min d1.length d2.length ≤ i * sectionSize then (0, 0)
    else
      let start := i * sectionSize
      let section1 := substring d1 start (min (start + sectionSize) d1.length)
      let section2 := substring d2 start (min (start + sectionSize) d2.length)
      let minLength := min section1.length section2.length
      let sectionSimilarity : Rat := (countMatches section1 section2 : Rat) / (minLength : Rat)
      let tail := patternGo d1 d2 sectionSize rest
      (sectionSimilarity + tail.1, tail.2 + 1)

/-- Metric `analyzeImagePatterns`: 30 fixed sections over a sample of at most
15000 characters, averaging per-section exact-match ratios. -/
def analyzeImagePatterns (d1 d2 : Str) : Rat :=
  let sampleSize := min 15000 (min d1.length d2.length)
  let sectionSize := sampleSize / 30
  let res := patternGo d1 d2 sectionSize (List.range 30)
  if 0 < res.2 then res.1 / (res.2 : Rat) else 0

/-- The `strictSlidingWindow` loop: windows of 100 characters at stride
50, at most `fuel` (= 40) windows, while `i < maxLength - windowSize`.
Returns (total score, best score, window count). -/
def slideGo (d1 d2 : Str) (maxLength : Nat) : Nat → Nat → Rat × Rat × Nat
  | 0, _ => (0, 0, 0)
  | fuel + 1, i =>
    if i < maxLength - 100 then
      let window1 := substring d1 i (i + 100)
      let window2 := substring d2 i (i + 100)
      let windowScore : Rat := (countMatches window1 window2 : Rat) / 100
      let tail := slideGo d1 d2 maxLength fuel (i + 50)
      (windowScore + tail.1, max windowScore tail.2.1, tail.2.2 + 1)
    else (0, 0, 0)

/-- Metric `strictSlidingWindow`: average and best window score blended 60/40. -/
def strictSlidingWindow (d1 d2 : Str) : Rat :=
  let maxLength := min d1.length d2.length
  let res := slideGo d1 d2 maxLength 40 0
  let avgScore := if 0 < res.2.2 then res.1 / (res.2.2 : Rat) else 0
  avgScore * (6/10) + res.2.1 * (4/10)

/-- Helper `getStats` from `strictStatisticalFingerprint`: mean and variance of
the code units of the first at-most-20000 characters.  On an empty sample
the source computes `0 / 0 = NaN` for both; here the `Rat` convention
gives 0 — the divergence is captured by `getStatsJS` below. -/
def getStats (data : Str) : Rat × Rat :=
  let sample := data.take (min 20000 data.length)
  let mean : Rat := ((sample.foldl (· + ·) 0 : Nat) : Rat) / (sample.length : Rat)
  let variance : Rat :=
    (sample.foldl (fun (a : Rat) (b : Nat) => a + ((b : Rat) - mean) ^ 2) 0) / (sample.length : Rat)
  (mean, variance)

/-- Metric `strictStatisticalFingerprint`: mean/variance agreement, each floored
at 0.3, averaged. -/
def strictStatisticalFingerprint (d1 d2 : Str) : Rat :=
  let stats1 := getStats d1
  let stats2 := getStats d2
  let meanSim := max (3/10) (1 - |stats1.1 - stats2.1| / max stats1.1 stats2.1)
  let varSim := max (3/10) (1 - |stats1.2 - stats2.2| / max stats1.2 stats2.2)
  (meanSim + varSim) / 2

/-- Scorer `calculateStrictVotingFaceSimilarity` (`src/utils/faceVerification.ts`):
exact-match short circuit, validity gate, then the weighted composite of
length, pattern, sliding-window and statistical sub-metrics.  Exact-`Rat`
model with `0 / 0 = 0`; the source's `0 / 0 = NaN` corner (reachable for
validator-accepted blobs with degenerate payloads) is modelled separately
by `calculateStrictVotingFaceSimilarityJS` below. -/
def calculateStrictVotingFaceSimilarity (registeredFace currentFace : Str) : Rat :=
  if registeredFace = currentFace then 1
  else if !(isValidImage registeredFace && isValidImage currentFace) then 0
  else
    let data1 := getBase64 registeredFace
    let data2 := getBase64 currentFace
    let lengthDiff : Rat := |(data1.length : Rat) - (data2.length : Rat)|
    let avgLength : Rat := ((data1.length : Rat) + (data2.length : Rat)) / 2
    let lengthSimilarity := max (5/10) (1 - lengthDiff / avgLength)
    let patternSimilarity := analyzeImagePatterns data1 data2
    let slidingWindowSimilarity := strictSlidingWindow data1 data2
    let statSimilarity := strictStatisticalFingerprint data1 data2
    lengthSimilarity * (15/100) + patternSimilarity * (50/100) +
      slidingWindowSimilarity * (25/100) + statSimilarity * (10/100)

/-- Wrapper `calculateMaximumSecurityFaceSimilarity` delegates to the strict
voting scorer ("For now, use the strict voting similarity for consistency"). -/
def calculateMaximumSecurityFaceSimilarity (face1 face2 : Str) : Rat :=
  calculateStrictVotingFaceSimilarity face1 face2

/-- The vote-time verification threshold (`const threshold = 0.60` in
`verifyFaceMatch`). -/
def verificationThreshold : Rat := mkRat 60 100

/-- Result record of `verifyFaceMatch`. -/
structure VerifyResult where
  isMatch : Bool
  similarity : Rat
  distance : Rat
deriving DecidableEq, Repr

/-- Decision `verifyFaceMatch` (`src/utils/faceVerification.ts`): accepts iff the
strict similarity reaches the verification threshold. -/
def verifyFaceMatch (registeredFace currentFace : Str) : VerifyResult :=
  let similarity := calculateStrictVotingFaceSimilarity registeredFace currentFace
  let distance := 1 - similarity
  { isMatch := decide (verificationThreshold ≤ similarity)
    similarity := similarity
    distance := distance }

/-- Voter record (`src/types/voting.ts`, as consumed by the services). -/
structure Voter where
  id : Str
  name : Str
  aadhaarNumber : Str
  voterId : Str
  address : Str
  faceData : Str
  irisData : Str
  hasVoted : Bool
deriving DecidableEq, Repr

/-- The three distinct operator-facing detail templates produced by
`isFaceAlreadyRegistered`, with the data each template interpolates. -/
inductive DetailMsg where
  | duplicateFace (similarity : Rat) (name : Str) (voterId : Str)
  | suspectedDuplicate (similarity : Rat) (sizeVariation : Rat) (name : Str) (voterId : Str)
  | noDuplicate
deriving DecidableEq, Repr

/-- Result record of `isFaceAlreadyRegistered`. -/
structure DuplicateCheckResult where
  isDuplicate : Bool
  existingVoter : Option Voter
  similarity : Rat
  details : DetailMsg
deriving DecidableEq, Repr

/-- The registration-time duplicate threshold
(`const MAXIMUM_SECURITY_THRESHOLD = 0.45` in `src/utils/duplicateDetection.ts`). -/
def MAXIMUM_SECURITY_THRESHOLD : Rat := mkRat 45 100

/-- Guard `isFaceAlreadyRegistered` (`src/utils/duplicateDetection.ts`): walk the
roster in order; report the first voter whose similarity reaches the
threshold, or — when the similarity is at least 0.35, the size variation
below 5% and the similarity at least 0.40 — the first suspected duplicate. -/
def isFaceAlreadyRegistered (faceData : Str) : List Voter → DuplicateCheckResult
  | [] =>
    { isDuplicate := false
      existingVoter := none
      similarity := 0
      details := .noDuplicate }
  | existingVoter :: rest =>
    let similarity := calculateMaximumSecurityFaceSimilarity faceData existingVoter.faceData
    if MAXIMUM_SECURITY_THRESHOLD ≤ similarity then
      { isDuplicate := true
        existingVoter := some existingVoter
        similarity := similarity
        details := .duplicateFace similarity existingVoter.name existingVoter.voterId }
    else if mkRat 35 100 ≤ similarity then
      let sizeDiff : Rat := |(faceData.length : Rat) - (existingVoter.faceData.length : Rat)|
      let avgSize : Rat := ((faceData.length : Rat) + (existingVoter.faceData.length : Rat)) / 2
      let sizeVariation := sizeDiff / avgSize
      if sizeVariation < mkRat 5 100 ∧ mkRat 40 100 ≤ similarity then
        { isDuplicate := true
          existingVoter := some existingVoter
          similarity := similarity
          details := .suspectedDuplicate similarity sizeVariation existingVoter.name existingVoter.voterId }
      else isFaceAlreadyRegistered faceData rest
    else isFaceAlreadyRegistered faceData rest

/-- Quality-validation result (`validateFaceImageQuality` from
`src/utils/validation.ts`); the service only inspects `isValid`. -/
structure QualityResult where
  isValid : Bool
  score : Rat
  details : String
deriving Repr

/-- Result record of `verifyVoterService`. -/
structure AuthResult where
  success : Bool
  message : String
  voter : Option Voter
deriving Repr

/-- The credential lookup of `verifyVoterService`: first roster entry with
exactly matching Aadhaar number, voter id and (case-sensitive) name. -/
def credentialFind (aadhaar voterId name : Str) (voters : List Voter) : Option Voter :=
  voters.find? fun v =>
    v.aadhaarNumber == aadhaar && v.voterId == voterId && v.name == name

/-- Service `verifyVoterService`
(`src/services/authenticationService.ts`). The two imported collaborators
`validateFaceImageQuality` (from `utils/validation`) and `verifyFaceMatch`
(the boolean-returning variant from `utils/faceVerification`) are passed
as explicit parameters, modelling the module imports; the theorems below
hold for every instantiation of the two. -/
def verifyVoterService
    (validateQuality : Str → QualityResult)
    (faceMatcher : Str → Str → Bool)
    (aadhaar voterId name faceData : Str)
    (voters : List Voter) : AuthResult :=
  match credentialFind aadhaar voterId name voters with
  | none =>
    { success := false
      message := "Verification Failed: Voter authentication data mismatch. Please contact the Election Officer."
      voter := none }
  | some voter =>
    if voter.hasVoted then
      { success := false
        message := "Verification Failed: You have already cast your vote. Each voter can only vote once per election."
        voter := none }
    else
      let faceQuality := validateQuality faceData
      if !faceQuality.isValid then
        { success := false
          message := "Verification Failed: Face image quality insufficient. Please ensure proper lighting and clear visibility of your face, then try again."
          voter := none }
      else if !(faceMatcher voter.faceData faceData) then
        { success := false
          message := "Verification Failed: Voter authentication data mismatch. Please contact the Election Officer."
          voter := none }
      else
        let finalValidation :=
          (voter.aadhaarNumber == aadhaar) && (voter.voterId == voterId) &&
            (voter.name == name) && !voter.hasVoted
        if !finalValidation then
          { success := false
            message := "Verification Failed: Data integrity check failed. Please contact the Election Officer."
            voter := none }
        else
          { success := true
            message := "Authentication successful. You are authorized to cast your vote."
            voter := some voter }

/-- Validator `isValidBase64Image` from the historical `compareFaceImages`
(`src/unnamed/part_006`): no length requirement, unlike `isValidImage`. -/
def isValidBase64Image (data : Str) : Bool :=
  dataImagePrefix.isPrefixOf data && includesStr data base64Marker

/-- Historical `compareFaceImages` (`src/unnamed/part_006`): the call
`Math.random()` is modelled by the explicit argument `matchScore`, which
the source draws before comparing it against the 0.3 threshold. -/
def compareFaceImages (matchScore : Rat) (registeredFaceData currentFaceData : Str) : Bool :=
  if registeredFaceData = currentFaceData then true
  else if !(isValidBase64Image registeredFaceData && isValidBase64Image currentFaceData) then false
  else decide (matchScore > mkRat 3 10)

/-! ### Concrete blobs used by witnesses and counterexamples

`blobA` and `blobB` are two valid 10222-character data URLs whose payloads
are 1020 repetitions of two 10-character periods that agree at exactly 2
of 10 positions and have the same character multiset.  Every section,
window and statistical sample of the scorer is aligned to whole periods,
so the strict similarity of the pair is exactly
`1 * 0.15 + 0.2 * 0.50 + 0.2 * 0.25 + 1 * 0.10 = 0.40`. -/

def headerStr : Str := strOfString "data:image/png;base64,"

def periodA : Str := [65, 66, 67, 68, 69, 70, 71, 72, 73, 74]

def periodB : Str := [66, 65, 68, 67, 70, 69, 72, 71, 73, 74]

def payloadA : Str := (List.replicate 1020 periodA).flatten

def payloadB : Str := (List.replicate 1020 periodB).flatten

def blobA : Str := headerStr ++ payloadA

def blobB : Str := headerStr ++ payloadB

/-- The first 15 characters of the header, before the `base64,` marker. -/
def headerPre : Str := strOfString "data:image/png;"

/-- The size-variation quantity computed in the secondary check of
`isFaceAlreadyRegistered` (difference of blob lengths over their average). -/
def sizeVariationOf (faceData : Str) (v : Voter) : Rat :=
  |(faceData.length : Rat) - (v.faceData.length : Rat)| /
    (((faceData.length : Rat) + (v.faceData.length : Rat)) / 2)

/-- A roster entry triggers one of the two duplicate rules: similarity at
or above the 0.45 threshold, or similarity at least 0.35 with size
variation below 5% and similarity at least 0.40. -/
def duplicateTrigger (faceData : Str) (v : Voter) : Bool :=
  decide (MAXIMUM_SECURITY_THRESHOLD ≤
      calculateMaximumSecurityFaceSimilarity faceData v.faceData) ||
    (decide (mkRat 35 100 ≤ calculateMaximumSecurityFaceSimilarity faceData v.faceData) &&
      decide (sizeVariationOf faceData v < mkRat 5 100 ∧
        mkRat 40 100 ≤ calculateMaximumSecurityFaceSimilarity faceData v.faceData))

/-- Enrolled voter whose blob is `blobB` (similarity 0.40 to `blobA`). -/
def voterB : Voter :=
  { id := strOfString "1", name := strOfString "Asha Rao"
    aadhaarNumber := strOfString "111122223333", voterId := strOfString "A00000001B"
    address := strOfString "12 Lake Road", faceData := blobB
    irisData := strOfString "iris-1", hasVoted := false }

/-- Enrolled voter whose blob is byte-identical to `blobA`. -/
def voterA1 : Voter :=
  { id := strOfString "2", name := strOfString "Vikram Shah"
    aadhaarNumber := strOfString "222233334444", voterId := strOfString "B00000002C"
    address := strOfString "3 Hill Street", faceData := blobA
    irisData := strOfString "iris-2", hasVoted := false }

/-- A second enrolled voter whose blob is byte-identical to `blobA`. -/
def voterA2 : Voter :=
  { id := strOfString "3", name := strOfString "Meera Iyer"
    aadhaarNumber := strOfString "333344445555", voterId := strOfString "C00000003D"
    address := strOfString "7 Park Lane", faceData := blobA
    irisData := strOfString "iris-3", hasVoted := false }

/-- Voter with a tiny invalid blob, for witnesses. -/
def voterX : Voter :=
  { id := strOfString "4", name := strOfString "Ravi Nair"
    aadhaarNumber := strOfString "444455556666", voterId := strOfString "D00000004E"
    address := strOfString "9 Sea View", faceData := [120]
    irisData := strOfString "iris-4", hasVoted := false }

/-- Voter whose (invalid) blob is byte-identical to the tiny blob `[121]`. -/
def voterY : Voter :=
  { id := strOfString "5", name := strOfString "Lata Menon"
    aadhaarNumber := strOfString "555566667777", voterId := strOfString "E00000005F"
    address := strOfString "4 Rose Garden", faceData := [121]
    irisData := strOfString "iris-5", hasVoted := false }

/-- The strict scorer with an explicit random oracle threaded through, as
a JS engine would supply `Math.random`.  This variant of the source makes
no `Math.random()` call (unlike the historical `compareFaceImages` of
`src/unnamed/part_006`), so the oracle is never consumed and the body is
that of `calculateStrictVotingFaceSimilarity` verbatim. -/
def calculateStrictVotingFaceSimilarityRng (_rng : Nat → Rat)
    (registeredFace currentFace : Str) : Rat :=
  if registeredFace = currentFace then 1
  else if !(isValidImage registeredFace && isValidImage currentFace) then 0
  else
    let data1 := getBase64 registeredFace
    let data2 := getBase64 currentFace
    let lengthDiff : Rat := |(data1.length : Rat) - (data2.length : Rat)|
    let avgLength : Rat := ((data1.length : Rat) + (data2.length : Rat)) / 2
    let lengthSimilarity := max (5/10) (1 - lengthDiff / avgLength)
    let patternSimilarity := analyzeImagePatterns data1 data2
    let slidingWindowSimilarity := strictSlidingWindow data1 data2
    let statSimilarity := strictStatisticalFingerprint data1 data2
    lengthSimilarity * (15/100) + patternSimilarity * (50/100) +
      slidingWindowSimilarity * (25/100) + statSimilarity * (10/100)

/-- Small well-formed data URL (no length floor in `isValidBase64Image`). -/
def tinyBlobA : Str := strOfString "data:image/png;base64,iVBORAAAA"

/-- Small well-formed data URL differing from `tinyBlobA` in one character. -/
def tinyBlobB : Str := strOfString "data:image/png;base64,iVBORAAAB"

/-! ### IEEE refinement of the scorer

The `Rat` model above uses the convention `0 / 0 = 0`, while the source,
running IEEE doubles, computes `0 / 0 = NaN` there.  That corner is
reachable through `isValidImage`: a blob such as
`"data:image/" ++ <9990 filler characters> ++ "base64,"` is accepted
(prefix, marker, length 10008 > 10000) yet its extracted payload is
empty, so the source's `lengthDiff / avgLength` is `0 / 0 = NaN` and the
final score is NaN.  The definitions below re-embed the scorer with that
behaviour explicit: a JS number is an `Option Rat`, `none` standing for
NaN, and `jsDiv` returns `none` on a zero denominator.  On every division
site of this function a zero denominator forces a zero numerator (lengths,
counts, absolute differences over the same zero maxima), so the JS result
there is `0 / 0 = NaN`, never an infinity.  The sliding-window metric has
no zero denominator (windows divide by the literal 100 and the average is
guarded by `windowCount > 0`), so the plain `Rat` version is already
faithful and is reused.  Wherever no zero denominator occurs the
refinement agrees with the plain model (`similarityJS_eq_some` below). -/

/-- Division as the source's IEEE division behaves on this code: `none`
(NaN) on a zero denominator — on every call site the numerator is zero
whenever the denominator is — exact otherwise. -/
def jsDiv (a b : Rat) : Option Rat :=
  if b = 0 then none else some (a / b)

/-- NaN-aware variant of `patternGo`: the per-section ratio
`exactMatches / minLength` is `0 / 0 = NaN` when the computed section size
is zero (payloads shorter than 30 characters), and NaN poisons the
accumulated total. -/
def patternGoJS (d1 d2 : Str) (sectionSize : Nat) : List Nat → Option Rat × Nat
  | [] => (some 0, 0)
  | i :: rest =>
    if min d1.length d2.length ≤ i * sectionSize then (some 0, 0)
    else
      let start := i * sectionSize
      let section1 := substring d1 start (min (start + sectionSize) d1.length)
      let section2 := substring d2 start (min (start + sectionSize) d2.length)
      let minLength := min section1.length section2.length
      let sectionSimilarity := jsDiv (countMatches section1 section2 : Rat) (minLength : Rat)
      let tail := patternGoJS d1 d2 sectionSize rest
      ((match sectionSimilarity, tail.1 with
        | some s, some t => some (s + t)
        | _, _ => none), tail.2 + 1)

/-- NaN-aware variant of `analyzeImagePatterns` (the final average is
guarded by `validSections > 0`, so only a NaN total propagates). -/
def analyzeImagePatternsJS (d1 d2 : Str) : Option Rat :=
  let sampleSize := min 15000 (min d1.length d2.length)
  let sectionSize := sampleSize / 30
  let res := patternGoJS d1 d2 sectionSize (List.range 30)
  if 0 < res.2 then
    match res.1 with
    | some total => some (total / (res.2 : Rat))
    | none => none
  else some 0

/-- NaN-aware variant of `getStats`: on an empty sample both
`mean` and `variance` are `0 / 0 = NaN`.  The `mean` fed to the variance
fold is the plain rational mean; it only matters when the sample is
nonempty, where it coincides with the source's. -/
def getStatsJS (data : Str) : Option Rat × Option Rat :=
  let sample := data.take (min 20000 data.length)
  let mean : Rat := ((sample.foldl (· + ·) 0 : Nat) : Rat) / (sample.length : Rat)
  (jsDiv ((sample.foldl (· + ·) 0 : Nat) : Rat) (sample.length : Rat),
    jsDiv (sample.foldl (fun (a : Rat) (b : Nat) => a + ((b : Rat) - mean) ^ 2) 0)
      (sample.length : Rat))

/-- NaN-aware variant of `strictStatisticalFingerprint`: NaN means or
variances, or the `0 / 0` arising when both means (or both variances) are
zero, poison the whole sub-metric (`Math.max(0.3, NaN)` is NaN). -/
def strictStatisticalFingerprintJS (d1 d2 : Str) : Option Rat :=
  match (getStatsJS d1).1, (getStatsJS d1).2, (getStatsJS d2).1, (getStatsJS d2).2 with
  | some mean1, some var1, some mean2, some var2 =>
    (match jsDiv |mean1 - mean2| (max mean1 mean2), jsDiv |var1 - var2| (max var1 var2) with
      | some mq, some vq => some ((max (3/10) (1 - mq) + max (3/10) (1 - vq)) / 2)
      | _, _ => none)
  | _, _, _, _ => none

/-- NaN-aware refinement of `calculateStrictVotingFaceSimilarity`: the
same computation with the IEEE `0 / 0 = NaN` corner made explicit (`none`
for NaN); NaN in any weighted sub-metric makes the final score NaN. -/
def calculateStrictVotingFaceSimilarityJS (registeredFace currentFace : Str) : Option Rat :=
  if registeredFace = currentFace then some 1
  else if !(isValidImage registeredFace && isValidImage currentFace) then some 0
  else
    let data1 := getBase64 registeredFace
    let data2 := getBase64 currentFace
    let lengthDiff : Rat := |(data1.length : Rat) - (data2.length : Rat)|
    let avgLength : Rat := ((data1.length : Rat) + (data2.length : Rat)) / 2
    match jsDiv lengthDiff avgLength, analyzeImagePatternsJS data1 data2,
        strictStatisticalFingerprintJS data1 data2 with
    | some lr, some patternSimilarity, some statSimilarity =>
      let lengthSimilarity := max (5/10) (1 - lr)
      let slidingWindowSimilarity := strictSlidingWindow data1 data2
      some (lengthSimilarity * (15/100) + patternSimilarity * (50/100) +
        slidingWindowSimilarity * (25/100) + statSimilarity * (10/100))
    | _, _, _ => none

/-- Filler of a validator-accepted blob with an empty payload. -/
def fillerE1 : Str := List.replicate 9990 65

/-- A second filler, differing from `fillerE1` in every character. -/
def fillerE2 : Str := List.replicate 9990 67

/-- Validator-accepted blob of length 10008 whose payload after
`base64,` is empty. -/
def blobE1 : Str := dataImagePrefix ++ (fillerE1 ++ base64Marker)

/-- A second empty-payload blob, distinct from `blobE1`. -/
def blobE2 : Str := dataImagePrefix ++ (fillerE2 ++ base64Marker)

/-! ### General lemmas about the string primitives -/

theorem length_flatten_replicate (p : Str) (n : Nat) :
    ((List.replicate n p).flatten).length = n * p.length := by
  simp [List.length_flatten, Nat.mul_comm]

theorem flatten_replicate_split (p : Str) (n k : Nat) (h : k ≤ n) :
    (List.replicate n p).flatten =
      (List.replicate k p).flatten ++ (List.replicate (n - k) p).flatten := by
  rw [← List.flatten_append, ← List.replicate_add]
  congr 2
  omega

theorem drop_flatten_replicate (p : Str) (n k : Nat) (h : k ≤ n) :
    ((List.replicate n p).flatten).drop (k * p.length) =
      (List.replicate (n - k) p).flatten := by
  rw [flatten_replicate_split p n k h]
  exact List.drop_left' (length_flatten_replicate p k)

theorem take_flatten_replicate (p : Str) (n k : Nat) (h : k ≤ n) :
    ((List.replicate n p).flatten).take (k * p.length) =
      (List.replicate k p).flatten := by
  rw [flatten_replicate_split p n k h]
  exact List.take_left' (length_flatten_replicate p k)

theorem countMatches_append (a c : Str) : ∀ (b d : Str), a.length = b.length →
    countMatches (a ++ c) (b ++ d) = countMatches a b + countMatches c d := by
  induction a with
  | nil => intro b d h; rw [List.length_nil] at h; cases b with
    | nil => simp [countMatches]
    | cons y ys => simp at h
  | cons x xs ih =>
    intro b d h
    cases b with
    | nil => simp at h
    | cons y ys =>
      have ih' := ih ys d (by simpa using h)
      simp only [List.cons_append, countMatches]
      rw [show xs ++ c = xs.append c from rfl, show ys ++ d = ys.append d from rfl] at ih'
      rw [ih']
      omega

theorem countMatches_flatten_replicate (p q : Str) (h : p.length = q.length) :
    ∀ n : Nat, countMatches ((List.replicate n p).flatten) ((List.replicate n q).flatten) =
      n * countMatches p q := by
  intro n
  induction n with
  | zero => simp [countMatches]
  | succ n ih =>
    rw [List.replicate_succ, List.replicate_succ, List.flatten_cons, List.flatten_cons,
      countMatches_append p _ q _ h, ih]
    ring

theorem countMatches_le (a : Str) : ∀ b : Str, countMatches a b ≤ min a.length b.length := by
  induction a with
  | nil => intro b; simp [countMatches]
  | cons x xs ih =>
    intro b
    cases b with
    | nil => simp [countMatches]
    | cons y ys =>
      have := ih ys
      simp only [countMatches, List.length_cons]
      split <;> omega

theorem foldl_add_nat (l : List Nat) : ∀ a : Nat, l.foldl (· + ·) a = a + l.sum := by
  induction l with
  | nil => simp
  | cons x xs ih => intro a; simp [ih]; omega

theorem foldl_add_map (h : Nat → Rat) (l : Str) :
    ∀ a : Rat, l.foldl (fun (acc : Rat) (b : Nat) => acc + h b) a = a + (l.map h).sum := by
  induction l with
  | nil => simp
  | cons x xs ih => intro a; simp [ih]; ring

theorem sum_flatten_replicate_nat (p : List Nat) (n : Nat) :
    ((List.replicate n p).flatten).sum = n * p.sum := by
  induction n with
  | zero => simp
  | succ n ih =>
    rw [List.replicate_succ, List.flatten_cons, List.sum_append, ih]
    ring

theorem map_sum_flatten_replicate (h : Nat → Rat) (p : Str) (n : Nat) :
    (((List.replicate n p).flatten).map h).sum = (n : Rat) * (p.map h).sum := by
  induction n with
  | zero => simp
  | succ n ih =>
    rw [List.replicate_succ, List.flatten_cons, List.map_append, List.sum_append, ih]
    push_cast
    ring

/-! ### Parsing the `data:image/png;base64,` header -/

theorem indexOfStr_of_prefix (hay needle : Str) (h : needle.isPrefixOf hay = true) :
    indexOfStr hay needle = some 0 := by
  cases hay <;> simp [indexOfStr, h]

theorem indexOfStr_cons_of_not_prefix (x : Nat) (rest needle : Str)
    (h : needle.isPrefixOf (x :: rest) = false) :
    indexOfStr (x :: rest) needle = (indexOfStr rest needle).map (· + 1) := by
  simp [indexOfStr, h]

theorem indexOfStr_append (x : Nat) (nrest : Str) : ∀ (pre hay : Str),
    (∀ c ∈ pre, c ≠ x) →
    (x :: nrest).isPrefixOf hay = true →
    indexOfStr (pre ++ hay) (x :: nrest) = some pre.length := by
  intro pre
  induction pre with
  | nil => intro hay _ h; simpa using indexOfStr_of_prefix hay (x :: nrest) h
  | cons c cs ih =>
    intro hay hpre h
    have hne : List.isPrefixOf (x :: nrest) (c :: (cs ++ hay)) = false := by
      rw [List.isPrefixOf_cons₂]
      have : (x == c) = false := by
        simp only [beq_eq_false_iff_ne, ne_eq]
        exact fun hxc => hpre c (by simp) hxc.symm
      simp [this]
    rw [List.cons_append, indexOfStr_cons_of_not_prefix c (cs ++ hay) (x :: nrest) hne]
    rw [ih hay (fun d hd => hpre d (by simp [hd])) h]
    simp

theorem headerStr_split : headerStr = headerPre ++ base64Marker := by decide

theorem base64Marker_cons : base64Marker = 98 :: strOfString "ase64," := by decide

theorem indexOfStr_header (payload : Str) :
    indexOfStr (headerStr ++ payload) base64Marker = some 15 := by
  have h : headerStr ++ payload = headerPre ++ ((98 :: strOfString "ase64,") ++ payload) := by
    rw [headerStr_split, ← base64Marker_cons, List.append_assoc]
  rw [h, base64Marker_cons,
    indexOfStr_append 98 (strOfString "ase64,") headerPre ((98 :: strOfString "ase64,") ++ payload)
      (by decide)
      ( List.isPrefixOf_iff_prefix.mpr (List.prefix_append _ _))]
  decide

theorem getBase64_header (payload : Str) : getBase64 (headerStr ++ payload) = payload := by
  rw [getBase64, indexOfStr_header payload]
  exact List.drop_left' (by decide)

theorem includesStr_header (payload : Str) :
    includesStr (headerStr ++ payload) base64Marker = true := by
  simp [includesStr, indexOfStr_header payload]

theorem header_length : headerStr.length = 22 := by decide

theorem isValidImage_header (payload : Str) (h : 10000 < 22 + payload.length) :
    isValidImage (headerStr ++ payload) = true := by
  have h1 : dataImagePrefix.isPrefixOf (headerStr ++ payload) = true := by
    refine List.isPrefixOf_iff_prefix.mpr (List.IsPrefix.trans ?_ (List.prefix_append _ _))
    exact List.isPrefixOf_iff_prefix.mp (by decide)
  have h2 := includesStr_header payload
  have h3 : (headerStr ++ payload).length = 22 + payload.length := by
    rw [List.length_append, header_length]
  simp [isValidImage, h1, h2, h3, h]

theorem periodA_length : periodA.length = 10 := by decide

theorem periodB_length : periodB.length = 10 := by decide

theorem payloadA_length : payloadA.length = 10200 := by
  rw [payloadA, length_flatten_replicate, periodA_length]

theorem payloadB_length : payloadB.length = 10200 := by
  rw [payloadB, length_flatten_replicate, periodB_length]

theorem blobA_length : blobA.length = 10222 := by
  rw [blobA, List.length_append, header_length, payloadA_length]

theorem blobB_length : blobB.length = 10222 := by
  rw [blobB, List.length_append, header_length, payloadB_length]

theorem blobA_valid : isValidImage blobA = true := by
  rw [blobA]
  exact isValidImage_header payloadA (by rw [payloadA_length]; omega)

theorem blobB_valid : isValidImage blobB = true := by
  rw [blobB]
  exact isValidImage_header payloadB (by rw [payloadB_length]; omega)

theorem getBase64_blobA : getBase64 blobA = payloadA := getBase64_header payloadA

theorem getBase64_blobB : getBase64 blobB = payloadB := getBase64_header payloadB

theorem blobA_ne_blobB : blobA ≠ blobB := by
  intro h
  rw [blobA, blobB] at h
  have h' : payloadA = payloadB := List.append_cancel_left h
  rw [payloadA, payloadB, show (1020 : Nat) = 1019 + 1 from rfl, List.replicate_succ,
    List.replicate_succ, List.flatten_cons, List.flatten_cons,
    show periodA = 65 :: [66, 67, 68, 69, 70, 71, 72, 73, 74] from rfl,
    show periodB = 66 :: [65, 68, 67, 70, 69, 72, 71, 73, 74] from rfl,
    List.cons_append, List.cons_append] at h'
  injection h' with h1 h2
  exact absurd h1 (by decide)

/-! ### Evaluating the scorer on the periodic pair `(blobA, blobB)` -/

theorem countMatches_periods : countMatches periodA periodB = 2 := by decide

theorem substring_period340 (p : Str) (hp : p.length = 10) (i : Nat) (hi : i < 30) :
    substring ((List.replicate 1020 p).flatten) (i * 340)
      (min (i * 340 + 340) ((List.replicate 1020 p).flatten).length) =
      (List.replicate 34 p).flatten := by
  rw [length_flatten_replicate, hp]
  have h1 : min (i * 340 + 340) (1020 * 10) = i * 340 + 340 := by omega
  rw [h1, substring]
  have h2 : i * 340 + 340 - i * 340 = 340 := by omega
  rw [h2]
  have h3 : i * 340 = 34 * i * p.length := by rw [hp]; ring
  rw [h3, drop_flatten_replicate p 1020 (34 * i) (by omega)]
  have h4 : (340 : Nat) = 34 * p.length := by rw [hp]
  rw [h4, take_flatten_replicate p (1020 - 34 * i) 34 (by omega)]

theorem patternGo_payload : ∀ (l : List Nat), (∀ i ∈ l, i < 30) →
    patternGo payloadA payloadB 340 l = ((l.length : Rat) * (1/5), l.length) := by
  intro l
  induction l with
  | nil => intro _; simp [patternGo]
  | cons i rest ih =>
    intro h
    have hi : i < 30 := h i (by simp)
    have hrest := ih (fun j hj => h j (by simp [hj]))
    have hmin : min payloadA.length payloadB.length = 10200 := by
      simp [payloadA_length, payloadB_length]
    rw [patternGo, if_neg (by rw [hmin]; omega)]
    have hA : substring payloadA (i * 340) (min (i * 340 + 340) payloadA.length) =
        (List.replicate 34 periodA).flatten := by
      rw [payloadA]; exact substring_period340 periodA periodA_length i hi
    have hB : substring payloadB (i * 340) (min (i * 340 + 340) payloadB.length) =
        (List.replicate 34 periodB).flatten := by
      rw [payloadB]; exact substring_period340 periodB periodB_length i hi
    show
      ((countMatches
          (substring payloadA (i * 340) (min (i * 340 + 340) payloadA.length))
          (substring payloadB (i * 340) (min (i * 340 + 340) payloadB.length)) : Rat) /
        ((min
          (substring payloadA (i * 340) (min (i * 340 + 340) payloadA.length)).length
          (substring payloadB (i * 340) (min (i * 340 + 340) payloadB.length)).length : Nat) : Rat) +
          (patternGo payloadA payloadB 340 rest).1,
        (patternGo payloadA payloadB 340 rest).2 + 1) =
        (((i :: rest).length : Rat) * (1/5), (i :: rest).length)
    rw [hA, hB, hrest, countMatches_flatten_replicate periodA periodB (by decide) 34,
      countMatches_periods, length_flatten_replicate, length_flatten_replicate,
      periodA_length, periodB_length]
    refine Prod.ext ?_ ?_
    · show ((34 * 2 : Nat) : Rat) / ((min (34 * 10) (34 * 10) : Nat) : Rat) +
        (rest.length : Rat) * (1/5) = ((i :: rest).length : Rat) * (1/5)
      rw [List.length_cons]
      push_cast
      norm_num
      ring
    · show rest.length + 1 = (i :: rest).length
      rw [List.length_cons]

theorem analyzeImagePatterns_payload : analyzeImagePatterns payloadA payloadB = 1/5 := by
  rw [analyzeImagePatterns, payloadA_length, payloadB_length]
  have h : (min 15000 (min 10200 10200)) / 30 = 340 := by norm_num
  rw [h, patternGo_payload (List.range 30) (fun i hi => List.mem_range.mp hi)]
  norm_num

theorem window_period (p : Str) (hp : p.length = 10) (i : Nat) (h10 : i % 10 = 0)
    (hle : i + 100 ≤ 10200) :
    substring ((List.replicate 1020 p).flatten) i (i + 100) =
      (List.replicate 10 p).flatten := by
  rw [substring]
  have h2 : i + 100 - i = 100 := by omega
  rw [h2]
  have h3 : i = (i / 10) * p.length := by rw [hp]; omega
  rw [h3, drop_flatten_replicate p 1020 (i / 10) (by omega)]
  have h4 : (100 : Nat) = 10 * p.length := by rw [hp]
  rw [h4, take_flatten_replicate p (1020 - i / 10) 10 (by omega)]

theorem slideGo_payload : ∀ (fuel k : Nat), 50 * (k + fuel) ≤ 10100 →
    slideGo payloadA payloadB 10200 fuel (50 * k) =
      ((fuel : Rat) * (1/5), if fuel = 0 then (0 : Rat) else (1/5 : Rat), fuel) := by
  intro fuel
  induction fuel with
  | zero => intro k h; simp [slideGo]
  | succ fuel ih =>
    intro k h
    rw [slideGo, if_pos (by omega)]
    have hA : substring payloadA (50 * k) (50 * k + 100) = (List.replicate 10 periodA).flatten := by
      rw [payloadA]; exact window_period periodA periodA_length (50 * k) (by omega) (by omega)
    have hB : substring payloadB (50 * k) (50 * k + 100) = (List.replicate 10 periodB).flatten := by
      rw [payloadB]; exact window_period periodB periodB_length (50 * k) (by omega) (by omega)
    have htail : slideGo payloadA payloadB 10200 fuel (50 * k + 50) =
        ((fuel : Rat) * (1/5), if fuel = 0 then (0 : Rat) else (1/5 : Rat), fuel) := by
      rw [show 50 * k + 50 = 50 * (k + 1) from by ring]
      exact ih (k + 1) (by omega)
    show
      ((countMatches (substring payloadA (50 * k) (50 * k + 100))
          (substring payloadB (50 * k) (50 * k + 100)) : Rat) / 100 +
          (slideGo payloadA payloadB 10200 fuel (50 * k + 50)).1,
        max
          ((countMatches (substring payloadA (50 * k) (50 * k + 100))
            (substring payloadB (50 * k) (50 * k + 100)) : Rat) / 100)
          (slideGo payloadA payloadB 10200 fuel (50 * k + 50)).2.1,
        (slideGo payloadA payloadB 10200 fuel (50 * k + 50)).2.2 + 1) =
        (((fuel + 1 : Nat) : Rat) * (1/5),
          if (fuel + 1 : Nat) = 0 then (0 : Rat) else (1/5 : Rat), (fuel + 1 : Nat))
    rw [hA, hB, htail, countMatches_flatten_replicate periodA periodB (by decide) 10,
      countMatches_periods]
    refine Prod.ext ?_ (Prod.ext ?_ ?_)
    · show ((10 * 2 : Nat) : Rat) / 100 + (fuel : Rat) * (1/5) = ((fuel + 1 : Nat) : Rat) * (1/5)
      push_cast
      ring
    · show max (((10 * 2 : Nat) : Rat) / 100) (if fuel = 0 then (0 : Rat) else 1/5) =
        (if (fuel + 1 : Nat) = 0 then (0 : Rat) else (1/5 : Rat))
      cases fuel with
      | zero => norm_num
      | succ n => norm_num
    · simp

theorem strictSlidingWindow_payload : strictSlidingWindow payloadA payloadB = 1/5 := by
  rw [strictSlidingWindow, payloadA_length, payloadB_length]
  have h := slideGo_payload 40 0 (by norm_num)
  rw [show (50 * 0 : Nat) = 0 from rfl] at h
  rw [show min 10200 10200 = 10200 from rfl, h]
  norm_num

theorem getStats_flatten (p : Str) (hp : p.length = 10) (hsum : p.sum = 695)
    (hvar : (p.map (fun (b : Nat) => ((b : Rat) - 139/2) ^ 2)).sum = 165/2) :
    getStats ((List.replicate 1020 p).flatten) = (139/2, 33/4) := by
  have hlen : ((List.replicate 1020 p).flatten).length = 10200 := by
    rw [length_flatten_replicate, hp]
  have hsample : ((List.replicate 1020 p).flatten).take
      (min 20000 ((List.replicate 1020 p).flatten).length) = (List.replicate 1020 p).flatten := by
    rw [hlen, show min 20000 10200 = 10200 from rfl]
    exact List.take_of_length_le (le_of_eq hlen)
  simp only [getStats, hsample]
  rw [foldl_add_nat, sum_flatten_replicate_nat, hsum, hlen]
  have hmean : ((0 + 1020 * 695 : Nat) : Rat) / ((10200 : Nat) : Rat) = 139/2 := by norm_num
  rw [hmean]
  rw [foldl_add_map (fun (b : Nat) => ((b : Rat) - 139/2) ^ 2) ((List.replicate 1020 p).flatten) 0,
    map_sum_flatten_replicate (fun (b : Nat) => ((b : Rat) - 139/2) ^ 2) p 1020, hvar]
  norm_num

theorem periodA_var : (periodA.map (fun (b : Nat) => ((b : Rat) - 139/2) ^ 2)).sum = 165/2 := by
  simp [periodA]
  norm_num

theorem periodB_var : (periodB.map (fun (b : Nat) => ((b : Rat) - 139/2) ^ 2)).sum = 165/2 := by
  simp [periodB]
  norm_num

theorem getStats_payloadA : getStats payloadA = (139/2, 33/4) := by
  rw [payloadA]
  exact getStats_flatten periodA periodA_length (by decide) periodA_var

theorem getStats_payloadB : getStats payloadB = (139/2, 33/4) := by
  rw [payloadB]
  exact getStats_flatten periodB periodB_length (by decide) periodB_var

theorem strictStatisticalFingerprint_payload :
    strictStatisticalFingerprint payloadA payloadB = 1 := by
  simp only [strictStatisticalFingerprint, getStats_payloadA, getStats_payloadB]
  norm_num

/-- The strict scorer on the engineered pair: exactly 0.40
(`1 * 0.15 + 0.2 * 0.50 + 0.2 * 0.25 + 1 * 0.10`). -/
theorem simAB : calculateMaximumSecurityFaceSimilarity blobA blobB = 2/5 := by
  rw [calculateMaximumSecurityFaceSimilarity, calculateStrictVotingFaceSimilarity,
    if_neg blobA_ne_blobB]
  rw [blobA_valid, blobB_valid]
  simp only [Bool.and_self, Bool.not_true, Bool.false_eq_true, if_false,
    getBase64_blobA, getBase64_blobB, payloadA_length, payloadB_length,
    analyzeImagePatterns_payload, strictSlidingWindow_payload,
    strictStatisticalFingerprint_payload]
  norm_num

/-! ### The duplicate rules of `isFaceAlreadyRegistered` as a predicate -/

theorem MAXIMUM_SECURITY_THRESHOLD_value : MAXIMUM_SECURITY_THRESHOLD = 45/100 := by
  unfold MAXIMUM_SECURITY_THRESHOLD
  rw [Rat.mkRat_eq_divInt, Rat.divInt_eq_div]
  norm_num

theorem verificationThreshold_value : verificationThreshold = 60/100 := by
  unfold verificationThreshold
  rw [Rat.mkRat_eq_divInt, Rat.divInt_eq_div]
  norm_num

theorem mkRat35_value : (mkRat 35 100 : Rat) = 35/100 := by
  rw [Rat.mkRat_eq_divInt, Rat.divInt_eq_div]
  norm_num

theorem mkRat5_value : (mkRat 5 100 : Rat) = 5/100 := by
  rw [Rat.mkRat_eq_divInt, Rat.divInt_eq_div]
  norm_num

theorem mkRat40_value : (mkRat 40 100 : Rat) = 40/100 := by
  rw [Rat.mkRat_eq_divInt, Rat.divInt_eq_div]
  norm_num

theorem isFaceAlreadyRegistered_cons_skip (f : Str) (v : Voter) (l : List Voter)
    (h : duplicateTrigger f v = false) :
    isFaceAlreadyRegistered f (v :: l) = isFaceAlreadyRegistered f l := by
  simp only [duplicateTrigger, Bool.or_eq_false_iff, Bool.and_eq_false_iff,
    decide_eq_false_iff_not, sizeVariationOf] at h
  simp only [isFaceAlreadyRegistered]
  split_ifs with h1 h2 h3
  · exact absurd h1 h.1
  · rcases h.2 with h' | h'
    · exact absurd h2 h'
    · exact absurd h3 h'
  · rfl
  · rfl

theorem isFaceAlreadyRegistered_cons_hit (f : Str) (v : Voter) (l : List Voter)
    (h : duplicateTrigger f v = true) :
    (isFaceAlreadyRegistered f (v :: l)).isDuplicate = true ∧
      (isFaceAlreadyRegistered f (v :: l)).existingVoter = some v ∧
      (isFaceAlreadyRegistered f (v :: l)).similarity =
        calculateMaximumSecurityFaceSimilarity f v.faceData := by
  simp only [duplicateTrigger, Bool.or_eq_true, Bool.and_eq_true,
    decide_eq_true_eq, sizeVariationOf] at h
  simp only [isFaceAlreadyRegistered]
  split_ifs with h1 h2 h3
  · exact ⟨rfl, rfl, rfl⟩
  · exact ⟨rfl, rfl, rfl⟩
  · rcases h with h | ⟨hl, hr⟩
    · exact absurd h h1
    · exact absurd hr h3
  · rcases h with h | ⟨hl, hr⟩
    · exact absurd h h1
    · exact absurd hl h2

theorem isFaceAlreadyRegistered_first_hit (f : Str) (v : Voter) (rest : List Voter) :
    ∀ pre : List Voter, (∀ u ∈ pre, duplicateTrigger f u = false) →
    isFaceAlreadyRegistered f (pre ++ v :: rest) = isFaceAlreadyRegistered f (v :: rest) := by
  intro pre
  induction pre with
  | nil => intro _; rfl
  | cons u us ih =>
    intro h
    rw [List.cons_append, isFaceAlreadyRegistered_cons_skip f u _ (h u (by simp))]
    exact ih (fun w hw => h w (by simp [hw]))

theorem isFaceAlreadyRegistered_none (f : Str) : ∀ l : List Voter,
    (∀ u ∈ l, duplicateTrigger f u = false) →
    isFaceAlreadyRegistered f l =
      { isDuplicate := false, existingVoter := none, similarity := 0,
        details := .noDuplicate } := by
  intro l
  induction l with
  | nil => intro _; rfl
  | cons u us ih =>
    intro h
    rw [isFaceAlreadyRegistered_cons_skip f u us (h u (by simp))]
    exact ih (fun w hw => h w (by simp [hw]))

theorem sim_self (f : Str) : calculateMaximumSecurityFaceSimilarity f f = 1 := by
  rw [calculateMaximumSecurityFaceSimilarity, calculateStrictVotingFaceSimilarity, if_pos rfl]

/-- Shared helper: for distinct inputs with either side invalid, the
scorer returns 0 (the validity gate comes after the exact-match check). -/
theorem similarity_zero_of_invalid (a b : Str) (hne : a ≠ b)
    (h : isValidImage a = false ∨ isValidImage b = false) :
    calculateStrictVotingFaceSimilarity a b = 0 := by
  rw [calculateStrictVotingFaceSimilarity, if_neg hne]
  rcases h with h | h <;> simp [h]

theorem trigger_of_exact (f : Str) (v : Voter) (h : v.faceData = f) :
    duplicateTrigger f v = true := by
  simp only [duplicateTrigger, h, sim_self]
  norm_num [MAXIMUM_SECURITY_THRESHOLD]

theorem trigger_of_zero (f : Str) (v : Voter)
    (h : calculateMaximumSecurityFaceSimilarity f v.faceData = 0) :
    duplicateTrigger f v = false := by
  simp only [duplicateTrigger, h]
  norm_num [MAXIMUM_SECURITY_THRESHOLD]

/-! ### Concrete voters for the counterexample rosters -/

theorem simAB_voterB : calculateMaximumSecurityFaceSimilarity blobA voterB.faceData = 2/5 :=
  simAB

theorem sizeVariation_voterB : sizeVariationOf blobA voterB = 0 := by
  rw [sizeVariationOf, show voterB.faceData = blobB from rfl, blobA_length, blobB_length]
  norm_num

/-- Head-of-roster evaluation: `voterB` triggers the suspected-duplicate
branch at similarity exactly 0.40 and size variation 0. -/
theorem isFace_eval_voterB (l : List Voter) :
    isFaceAlreadyRegistered blobA (voterB :: l) =
      { isDuplicate := true, existingVoter := some voterB, similarity := 2/5,
        details := .suspectedDuplicate (2/5) 0 voterB.name voterB.voterId } := by
  have hlen : (voterB.faceData).length = 10222 := by
    rw [show voterB.faceData = blobB from rfl, blobB_length]
  simp only [isFaceAlreadyRegistered, simAB_voterB, hlen, blobA_length]
  norm_num [MAXIMUM_SECURITY_THRESHOLD]

/-- Head-of-roster evaluation: a voter whose blob is byte-identical to the
probe is reported through the primary threshold rule with similarity 1. -/
theorem isFace_eval_exact (f : Str) (v : Voter) (hv : v.faceData = f) (l : List Voter) :
    isFaceAlreadyRegistered f (v :: l) =
      { isDuplicate := true, existingVoter := some v, similarity := 1,
        details := .duplicateFace 1 v.name v.voterId } := by
  simp only [isFaceAlreadyRegistered, hv, sim_self]
  norm_num [MAXIMUM_SECURITY_THRESHOLD]

/-! ### Bounds of the sub-metrics and of the composite score -/

theorem natDiv_nonneg (a b : Nat) : 0 ≤ ((a : Rat) / (b : Rat)) :=
  div_nonneg (Nat.cast_nonneg a) (Nat.cast_nonneg b)

theorem natDiv_le_one (a b : Nat) (h : a ≤ b) : ((a : Rat) / (b : Rat)) ≤ 1 := by
  rcases Nat.eq_zero_or_pos b with hb | hb
  · have ha : a = 0 := by omega
    subst ha hb
    norm_num
  · rw [div_le_one (by exact_mod_cast hb)]
    exact_mod_cast h

theorem patternGo_bounds (d1 d2 : Str) (ss : Nat) : ∀ l : List Nat,
    0 ≤ (patternGo d1 d2 ss l).1 ∧
      (patternGo d1 d2 ss l).1 ≤ ((patternGo d1 d2 ss l).2 : Rat) := by
  intro l
  induction l with
  | nil => simp [patternGo]
  | cons i rest ih =>
    simp only [patternGo]
    split_ifs with h
    · simp
    · have hsec0 : 0 ≤ (countMatches
          (substring d1 (i * ss) (min (i * ss + ss) d1.length))
          (substring d2 (i * ss) (min (i * ss + ss) d2.length)) : Rat) /
          ((min (substring d1 (i * ss) (min (i * ss + ss) d1.length)).length
            (substring d2 (i * ss) (min (i * ss + ss) d2.length)).length : Nat) : Rat) :=
        natDiv_nonneg _ _
      have hsec1 : (countMatches
          (substring d1 (i * ss) (min (i * ss + ss) d1.length))
          (substring d2 (i * ss) (min (i * ss + ss) d2.length)) : Rat) /
          ((min (substring d1 (i * ss) (min (i * ss + ss) d1.length)).length
            (substring d2 (i * ss) (min (i * ss + ss) d2.length)).length : Nat) : Rat) ≤ 1 :=
        natDiv_le_one _ _ (countMatches_le _ _)
      obtain ⟨ih0, ih1⟩ := ih
      constructor
      · positivity
      · rw [Nat.cast_add, Nat.cast_one]
        linarith

theorem analyzeImagePatterns_bounds (d1 d2 : Str) :
    0 ≤ analyzeImagePatterns d1 d2 ∧ analyzeImagePatterns d1 d2 ≤ 1 := by
  obtain ⟨h0, h1⟩ := patternGo_bounds d1 d2
    ((min 15000 (min d1.length d2.length)) / 30) (List.range 30)
  simp only [analyzeImagePatterns]
  split_ifs with h
  · constructor
    · exact div_nonneg h0 (Nat.cast_nonneg _)
    · rw [div_le_one (by exact_mod_cast h)]
      exact h1
  · norm_num

theorem slideGo_bounds (d1 d2 : Str) (mlen : Nat) : ∀ fuel i,
    0 ≤ (slideGo d1 d2 mlen fuel i).1 ∧
      (slideGo d1 d2 mlen fuel i).1 ≤ ((slideGo d1 d2 mlen fuel i).2.2 : Rat) ∧
      0 ≤ (slideGo d1 d2 mlen fuel i).2.1 ∧ (slideGo d1 d2 mlen fuel i).2.1 ≤ 1 := by
  intro fuel
  induction fuel with
  | zero => intro i; simp [slideGo]
  | succ fuel ih =>
    intro i
    simp only [slideGo]
    split_ifs with h
    · have hcm : countMatches (substring d1 i (i + 100)) (substring d2 i (i + 100)) ≤ 100 := by
        have h1 := countMatches_le (substring d1 i (i + 100)) (substring d2 i (i + 100))
        have h2 : (substring d1 i (i + 100)).length ≤ 100 := by
          rw [substring]
          have := List.length_take_le (i + 100 - i) (d1.drop i)
          omega
        omega
      have hw0 : 0 ≤ (countMatches (substring d1 i (i + 100))
          (substring d2 i (i + 100)) : Rat) / 100 := by positivity
      have hw1 : (countMatches (substring d1 i (i + 100))
          (substring d2 i (i + 100)) : Rat) / 100 ≤ 1 := by
        rw [div_le_one (by norm_num)]
        exact_mod_cast hcm
      obtain ⟨ih0, ih1, ih2, ih3⟩ := ih (i + 50)
      refine ⟨by positivity, ?_, ?_, ?_⟩
      · rw [Nat.cast_add, Nat.cast_one]
        linarith
      · exact le_trans hw0 (le_max_left _ _)
      · exact max_le hw1 ih3
    · simp

theorem strictSlidingWindow_bounds (d1 d2 : Str) :
    0 ≤ strictSlidingWindow d1 d2 ∧ strictSlidingWindow d1 d2 ≤ 1 := by
  obtain ⟨h0, h1, h2, h3⟩ := slideGo_bounds d1 d2 (min d1.length d2.length) 40 0
  simp only [strictSlidingWindow]
  split_ifs with h
  · have havg0 : 0 ≤ (slideGo d1 d2 (min d1.length d2.length) 40 0).1 /
        (((slideGo d1 d2 (min d1.length d2.length) 40 0).2.2 : Nat) : Rat) :=
      div_nonneg h0 (Nat.cast_nonneg _)
    have havg1 : (slideGo d1 d2 (min d1.length d2.length) 40 0).1 /
        (((slideGo d1 d2 (min d1.length d2.length) 40 0).2.2 : Nat) : Rat) ≤ 1 := by
      rw [div_le_one (by exact_mod_cast h)]
      exact h1
    constructor <;> linarith
  · constructor <;> linarith

theorem getStats_nonneg (d : Str) : 0 ≤ (getStats d).1 ∧ 0 ≤ (getStats d).2 := by
  simp only [getStats]
  refine ⟨div_nonneg (Nat.cast_nonneg _) (Nat.cast_nonneg _), ?_⟩
  apply div_nonneg _ (Nat.cast_nonneg _)
  rw [foldl_add_map]
  rw [zero_add]
  apply List.sum_nonneg
  intro x hx
  obtain ⟨b, _, rfl⟩ := List.mem_map.mp hx
  positivity

theorem strictStatisticalFingerprint_bounds (d1 d2 : Str) :
    0 ≤ strictStatisticalFingerprint d1 d2 ∧ strictStatisticalFingerprint d1 d2 ≤ 1 := by
  obtain ⟨hm1, hv1⟩ := getStats_nonneg d1
  obtain ⟨hm2, hv2⟩ := getStats_nonneg d2
  simp only [strictStatisticalFingerprint]
  have hmd : 0 ≤ |(getStats d1).1 - (getStats d2).1| / max (getStats d1).1 (getStats d2).1 :=
    div_nonneg (abs_nonneg _) (le_max_of_le_left hm1)
  have hvd : 0 ≤ |(getStats d1).2 - (getStats d2).2| / max (getStats d1).2 (getStats d2).2 :=
    div_nonneg (abs_nonneg _) (le_max_of_le_left hv1)
  have hms1 : max (3/10 : Rat)
      (1 - |(getStats d1).1 - (getStats d2).1| / max (getStats d1).1 (getStats d2).1) ≤ 1 :=
    max_le (by norm_num) (by linarith)
  have hms0 : (3/10 : Rat) ≤ max (3/10 : Rat)
      (1 - |(getStats d1).1 - (getStats d2).1| / max (getStats d1).1 (getStats d2).1) :=
    le_max_left _ _
  have hvs1 : max (3/10 : Rat)
      (1 - |(getStats d1).2 - (getStats d2).2| / max (getStats d1).2 (getStats d2).2) ≤ 1 :=
    max_le (by norm_num) (by linarith)
  have hvs0 : (3/10 : Rat) ≤ max (3/10 : Rat)
      (1 - |(getStats d1).2 - (getStats d2).2| / max (getStats d1).2 (getStats d2).2) :=
    le_max_left _ _
  constructor <;> linarith

/-- Shared helper: the strict scorer is bounded by `[0, 1]` on every pair
of inputs (valid or not). -/
theorem similarity_bounds (a b : Str) :
    0 ≤ calculateStrictVotingFaceSimilarity a b ∧
      calculateStrictVotingFaceSimilarity a b ≤ 1 := by
  simp only [calculateStrictVotingFaceSimilarity]
  split_ifs with h1 h2
  · norm_num
  · norm_num
  · obtain ⟨hp0, hp1⟩ := analyzeImagePatterns_bounds (getBase64 a) (getBase64 b)
    obtain ⟨hs0, hs1⟩ := strictSlidingWindow_bounds (getBase64 a) (getBase64 b)
    obtain ⟨ht0, ht1⟩ := strictStatisticalFingerprint_bounds (getBase64 a) (getBase64 b)
    have hld : 0 ≤ |((getBase64 a).length : Rat) - ((getBase64 b).length : Rat)| /
        ((((getBase64 a).length : Rat) + ((getBase64 b).length : Rat)) / 2) :=
      div_nonneg (abs_nonneg _) (by positivity)
    have hl1 : max (5/10 : Rat)
        (1 - |((getBase64 a).length : Rat) - ((getBase64 b).length : Rat)| /
          ((((getBase64 a).length : Rat) + ((getBase64 b).length : Rat)) / 2)) ≤ 1 :=
      max_le (by norm_num) (by linarith)
    have hl0 : (5/10 : Rat) ≤ max (5/10 : Rat)
        (1 - |((getBase64 a).length : Rat) - ((getBase64 b).length : Rat)| /
          ((((getBase64 a).length : Rat) + ((getBase64 b).length : Rat)) / 2)) :=
      le_max_left _ _
    constructor <;> linarith

/-- Claim C1 (amended): for **distinct** inputs, if either side fails
image-blob validation the strict scorer returns 0.  The original "no
exception for any pair, including a == b" clause fails on the code: the
exact-match short circuit precedes the validity gate. -/
theorem C1_invalid_floor (a b : Str) (hne : a ≠ b)
    (h : isValidImage a = false ∨ isValidImage b = false) :
    calculateStrictVotingFaceSimilarity a b = 0 :=
  similarity_zero_of_invalid a b hne h

/-- Claim C1, witness: on the invalid distinct pair ("x", "y") the scorer
returns 0. -/
theorem C1_witness :
    ([120] : Str) ≠ [121] ∧ (isValidImage [120] = false ∨ isValidImage [121] = false) ∧
      calculateStrictVotingFaceSimilarity [120] [121] = 0 :=
  ⟨by decide, Or.inl (by decide), C1_invalid_floor [120] [121] (by decide) (Or.inl (by decide))⟩

/-- Claim C1, counterexample to the claim as stated: the one-character
blob "x" fails validation, yet the scorer on the pair ("x", "x") returns
1, not 0 — there **is** an exception at a == b. -/
theorem C1_counterexample :
    isValidImage [120] = false ∧
      calculateStrictVotingFaceSimilarity [120] [120] = 1 := by
  exact ⟨by decide, by decide⟩

/-- Claim C2 (amended): the duplicate check reports the first roster entry
at or above the 0.45 threshold **provided no earlier entry triggers either
duplicate rule** (in particular the secondary suspected-duplicate rule);
iteration is in roster order, never "best match overall". -/
theorem C2_first_match (f : Str) (pre rest : List Voter) (v : Voter)
    (hpre : ∀ u ∈ pre, duplicateTrigger f u = false)
    (hv : MAXIMUM_SECURITY_THRESHOLD ≤ calculateMaximumSecurityFaceSimilarity f v.faceData) :
    (isFaceAlreadyRegistered f (pre ++ v :: rest)).isDuplicate = true ∧
      (isFaceAlreadyRegistered f (pre ++ v :: rest)).existingVoter = some v := by
  rw [isFaceAlreadyRegistered_first_hit f v rest pre hpre]
  have ht : duplicateTrigger f v = true := by
    simp only [duplicateTrigger, Bool.or_eq_true, decide_eq_true_eq]
    exact Or.inl hv
  obtain ⟨h1, h2, _⟩ := isFaceAlreadyRegistered_cons_hit f v rest ht
  exact ⟨h1, h2⟩

/-- Claim C2, witness: a two-entry roster whose first entry triggers no
rule and whose second is over threshold reports the second entry. -/
theorem C2_witness :
    (∀ u ∈ [voterX], duplicateTrigger [121] u = false) ∧
      MAXIMUM_SECURITY_THRESHOLD ≤ calculateMaximumSecurityFaceSimilarity [121] voterY.faceData ∧
      (isFaceAlreadyRegistered [121] ([voterX] ++ voterY :: [])).isDuplicate = true ∧
      (isFaceAlreadyRegistered [121] ([voterX] ++ voterY :: [])).existingVoter = some voterY := by
  refine ⟨by decide, by decide, ?_, ?_⟩
  · exact (C2_first_match [121] [voterX] [] voterY (by decide) (by decide)).1
  · exact (C2_first_match [121] [voterX] [] voterY (by decide) (by decide)).2

/-- Claim C2, counterexample to the claim as stated: `voterA1` and
`voterA2` (entries 2 and 3) both score 1 ≥ 0.45 against the probe, yet the
check reports `voterB` (entry 1), whose similarity 0.40 is *below* the
threshold, through the secondary suspected-duplicate rule. -/
theorem C2_counterexample :
    MAXIMUM_SECURITY_THRESHOLD ≤ calculateMaximumSecurityFaceSimilarity blobA voterA1.faceData ∧
      MAXIMUM_SECURITY_THRESHOLD ≤ calculateMaximumSecurityFaceSimilarity blobA voterA2.faceData ∧
      calculateMaximumSecurityFaceSimilarity blobA voterB.faceData < MAXIMUM_SECURITY_THRESHOLD ∧
      (isFaceAlreadyRegistered blobA [voterB, voterA1, voterA2]).existingVoter = some voterB ∧
      voterB ≠ voterA1 ∧ voterB ≠ voterA2 := by
  refine ⟨?_, ?_, ?_, ?_, by decide, by decide⟩
  · rw [show voterA1.faceData = blobA from rfl, sim_self]
    norm_num [MAXIMUM_SECURITY_THRESHOLD]
  · rw [show voterA2.faceData = blobA from rfl, sim_self]
    norm_num [MAXIMUM_SECURITY_THRESHOLD]
  · rw [simAB_voterB]
    norm_num [MAXIMUM_SECURITY_THRESHOLD]
  · rw [isFace_eval_voterB]

/-- Claim C3 (amended): a roster entry byte-identical to the new blob is
reported with similarity exactly 1 **provided no earlier entry triggers a
duplicate rule**; there is no separate byte-equality pre-scan, the
equality is only reached in roster order. -/
theorem C3_byte_equal (f : Str) (pre rest : List Voter) (v : Voter)
    (hpre : ∀ u ∈ pre, duplicateTrigger f u = false)
    (hv : v.faceData = f) :
    isFaceAlreadyRegistered f (pre ++ v :: rest) =
      { isDuplicate := true, existingVoter := some v, similarity := 1,
        details := .duplicateFace 1 v.name v.voterId } := by
  rw [isFaceAlreadyRegistered_first_hit f v rest pre hpre, isFace_eval_exact f v hv]

/-- Claim C3, witness: with a no-trigger first entry, the byte-identical
second entry is reported with score 1. -/
theorem C3_witness :
    (∀ u ∈ [voterX], duplicateTrigger [121] u = false) ∧ voterY.faceData = [121] ∧
      isFaceAlreadyRegistered [121] ([voterX] ++ voterY :: []) =
        { isDuplicate := true, existingVoter := some voterY, similarity := 1,
          details := .duplicateFace 1 voterY.name voterY.voterId } :=
  ⟨by decide, rfl, C3_byte_equal [121] [voterX] [] voterY (by decide) rfl⟩

/-- Claim C3, counterexample to the claim as stated: `voterA1`'s blob is
byte-identical to the probe, yet the check reports `voterB` (similarity
0.40, not 1.0), because the suspected-duplicate rule fires first in roster
order — no byte-equality scan takes precedence. -/
theorem C3_counterexample :
    voterA1.faceData = blobA ∧
      (isFaceAlreadyRegistered blobA [voterB, voterA1]).isDuplicate = true ∧
      (isFaceAlreadyRegistered blobA [voterB, voterA1]).existingVoter = some voterB ∧
      voterB.faceData ≠ blobA ∧
      (isFaceAlreadyRegistered blobA [voterB, voterA1]).similarity ≠ 1 := by
  refine ⟨rfl, ?_, ?_, ?_, ?_⟩
  · rw [isFace_eval_voterB]
  · rw [isFace_eval_voterB]
  · show blobB ≠ blobA
    exact fun h => blobA_ne_blobB h.symm
  · rw [isFace_eval_voterB]
    norm_num

/-- Claim C4: vote-time verification accepts exactly when the strict
similarity reaches the configured 0.60 threshold. -/
theorem C4_threshold_iff (a b : Str) :
    (verifyFaceMatch a b).isMatch = true ↔
      verificationThreshold ≤ calculateStrictVotingFaceSimilarity a b := by
  simp [verifyFaceMatch]

/-- Claim C5: the registration-time duplicate threshold 0.45 is strictly
below the vote-time verification threshold 0.60; hence every pair passing
vote-time verification is also over the duplicate threshold, and scores in
`[0.45, 0.60)` witness that the converse fails. -/
theorem C5_threshold_asymmetry :
    MAXIMUM_SECURITY_THRESHOLD < verificationThreshold ∧
      (∀ a b : Str, (verifyFaceMatch a b).isMatch = true →
        MAXIMUM_SECURITY_THRESHOLD ≤ (verifyFaceMatch a b).similarity) ∧
      ∃ s : Rat, MAXIMUM_SECURITY_THRESHOLD ≤ s ∧ s < verificationThreshold := by
  refine ⟨by norm_num [MAXIMUM_SECURITY_THRESHOLD, verificationThreshold], ?_, 1/2,
    by norm_num [MAXIMUM_SECURITY_THRESHOLD], by norm_num [verificationThreshold]⟩
  intro a b h
  simp only [verifyFaceMatch, decide_eq_true_eq] at h
  simp only [verifyFaceMatch]
  norm_num [MAXIMUM_SECURITY_THRESHOLD] at *
  norm_num [verificationThreshold] at h
  linarith

/-- Claim C7 (amended): `isFaceAlreadyRegistered` performs no blob
validation of its own; for an invalid new blob that is not byte-identical
to any enrolled blob it returns the same generic no-duplicate outcome
(`isDuplicate = false`, detail "No similar face patterns detected in
database") as a valid non-matching blob — there is no distinct
quality-insufficient detail at this layer (that rejection happens earlier,
in `registerVoterService`). -/
theorem C7_invalid_same_detail (f : Str) (roster : List Voter)
    (hinv : isValidImage f = false)
    (hne : ∀ v ∈ roster, v.faceData ≠ f) :
    isFaceAlreadyRegistered f roster =
      { isDuplicate := false, existingVoter := none, similarity := 0,
        details := .noDuplicate } := by
  apply isFaceAlreadyRegistered_none
  intro u hu
  apply trigger_of_zero
  exact similarity_zero_of_invalid f u.faceData
    (fun h => hne u hu h.symm) (Or.inl hinv)

/-- Claim C7, witness: the invalid blob "x" against a one-voter roster. -/
theorem C7_witness :
    isValidImage [120] = false ∧ (∀ v ∈ [voterY], v.faceData ≠ ([120] : Str)) ∧
      isFaceAlreadyRegistered [120] [voterY] =
        { isDuplicate := false, existingVoter := none, similarity := 0,
          details := .noDuplicate } :=
  ⟨by decide, by decide, C7_invalid_same_detail [120] [voterY] (by decide) (by decide)⟩

/-- Claim C7, counterexample to the claim as stated: for the invalid blob
"x" the check returns the very same `noDuplicate` detail that the
"no duplicate found" outcome carries — not a distinct quality-insufficient
detail (the result type of the function has no such detail at all). -/
theorem C7_counterexample :
    isValidImage [120] = false ∧
      (isFaceAlreadyRegistered [120] [voterY]).isDuplicate = false ∧
      (isFaceAlreadyRegistered [120] [voterY]).details = DetailMsg.noDuplicate ∧
      (isFaceAlreadyRegistered [120] []).details = DetailMsg.noDuplicate := by
  refine ⟨by decide, by decide, by decide, by decide⟩

/-- Claim C8: the scorer is deterministic — threading an arbitrary random
oracle through the computation cannot change the result (this variant
makes no `Math.random()` call), whereas the discarded historical
`compareFaceImages` does change its answer with the random draw. -/
theorem C8_determinism :
    (∀ (rng1 rng2 : Nat → Rat) (a b : Str),
        calculateStrictVotingFaceSimilarityRng rng1 a b =
          calculateStrictVotingFaceSimilarityRng rng2 a b) ∧
      (∀ (rng : Nat → Rat) (a b : Str),
        calculateStrictVotingFaceSimilarityRng rng a b =
          calculateStrictVotingFaceSimilarity a b) ∧
      ∃ (r1 r2 : Rat) (f c : Str),
        compareFaceImages r1 f c ≠ compareFaceImages r2 f c := by
  refine ⟨fun _ _ _ _ => rfl, fun _ _ _ => rfl,
    mkRat 9 10, mkRat 1 10, tinyBlobA, tinyBlobB, ?_⟩
  decide

/-- Claim C9 (amended): the secondary rule holds for the **first** entry
(in roster order, with no earlier entry triggering either rule) whose
similarity is in `[0.40, 0.45)` and whose size variation is below 5%: it
is reported as a duplicate with the distinct suspected-duplicate detail. -/
theorem C9_suspected_rule (f : Str) (pre rest : List Voter) (v : Voter)
    (hpre : ∀ u ∈ pre, duplicateTrigger f u = false)
    (hlt : calculateMaximumSecurityFaceSimilarity f v.faceData < MAXIMUM_SECURITY_THRESHOLD)
    (hge : (40/100 : Rat) ≤ calculateMaximumSecurityFaceSimilarity f v.faceData)
    (hsv : sizeVariationOf f v < 5/100) :
    isFaceAlreadyRegistered f (pre ++ v :: rest) =
      { isDuplicate := true, existingVoter := some v,
        similarity := calculateMaximumSecurityFaceSimilarity f v.faceData,
        details := .suspectedDuplicate (calculateMaximumSecurityFaceSimilarity f v.faceData)
          (sizeVariationOf f v) v.name v.voterId } := by
  rw [isFaceAlreadyRegistered_first_hit f v rest pre hpre]
  simp only [isFaceAlreadyRegistered, sizeVariationOf] at hsv ⊢
  rw [if_neg (not_le.mpr hlt),
    if_pos (le_trans (by rw [mkRat35_value]; norm_num [mkRat40_value] at hge ⊢; linarith)
      (le_refl (calculateMaximumSecurityFaceSimilarity f v.faceData))),
    if_pos ⟨by rw [mkRat5_value]; exact hsv, by rw [mkRat40_value]; exact hge⟩]

theorem simAB_lt_threshold :
    calculateMaximumSecurityFaceSimilarity blobA voterB.faceData < MAXIMUM_SECURITY_THRESHOLD := by
  rw [simAB_voterB, MAXIMUM_SECURITY_THRESHOLD_value]
  norm_num

theorem simAB_ge40 :
    (40/100 : Rat) ≤ calculateMaximumSecurityFaceSimilarity blobA voterB.faceData := by
  rw [simAB_voterB]
  norm_num

theorem sizeVariation_voterB_lt : sizeVariationOf blobA voterB < 5/100 := by
  rw [sizeVariation_voterB]
  norm_num

/-- Claim C9, witness: `voterB` alone in the roster, similarity exactly
0.40 and size variation 0, reported with the suspected-duplicate detail. -/
theorem C9_witness :
    calculateMaximumSecurityFaceSimilarity blobA voterB.faceData < MAXIMUM_SECURITY_THRESHOLD ∧
      (40/100 : Rat) ≤ calculateMaximumSecurityFaceSimilarity blobA voterB.faceData ∧
      sizeVariationOf blobA voterB < 5/100 ∧
      isFaceAlreadyRegistered blobA ([] ++ voterB :: []) =
        { isDuplicate := true, existingVoter := some voterB,
          similarity := calculateMaximumSecurityFaceSimilarity blobA voterB.faceData,
          details := .suspectedDuplicate
            (calculateMaximumSecurityFaceSimilarity blobA voterB.faceData)
            (sizeVariationOf blobA voterB) voterB.name voterB.voterId } :=
  ⟨simAB_lt_threshold, simAB_ge40, sizeVariation_voterB_lt,
    C9_suspected_rule blobA [] [] voterB (by simp) simAB_lt_threshold simAB_ge40
      sizeVariation_voterB_lt⟩

/-- Claim C9, counterexample to the claim as stated ("for every roster
entry ..."): `voterB` satisfies the secondary rule's conditions, yet the
check reports `voterA1` with the primary detail — entries after the first
trigger are never reported. -/
theorem C9_counterexample :
    (40/100 : Rat) ≤ calculateMaximumSecurityFaceSimilarity blobA voterB.faceData ∧
      sizeVariationOf blobA voterB < 5/100 ∧
      (isFaceAlreadyRegistered blobA [voterA1, voterB]).existingVoter = some voterA1 ∧
      voterA1 ≠ voterB ∧
      (isFaceAlreadyRegistered blobA [voterA1, voterB]).details =
        DetailMsg.duplicateFace 1 voterA1.name voterA1.voterId := by
  refine ⟨simAB_ge40, sizeVariation_voterB_lt, ?_, by decide, ?_⟩
  · rw [isFace_eval_exact blobA voterA1 rfl]
  · rw [isFace_eval_exact blobA voterA1 rfl]

/-- Claim C10: the authentication service never authorizes a voter whose
record has `hasVoted = true` — a credential-matched already-voted voter is
rejected with the already-voted message regardless of the face matcher and
quality validator, and a successful result always carries a voter with
`hasVoted = false`. -/
theorem C10_no_double_authorization :
    ∀ (validateQuality : Str → QualityResult) (faceMatcher : Str → Str → Bool)
      (aadhaar voterId name faceData : Str) (voters : List Voter),
      ((∃ v, credentialFind aadhaar voterId name voters = some v ∧ v.hasVoted = true) →
        (verifyVoterService validateQuality faceMatcher aadhaar voterId name faceData
            voters).success = false ∧
        (verifyVoterService validateQuality faceMatcher aadhaar voterId name faceData
            voters).message =
          "Verification Failed: You have already cast your vote. Each voter can only vote once per election.") ∧
      ((verifyVoterService validateQuality faceMatcher aadhaar voterId name faceData
          voters).success = true →
        ∃ v, credentialFind aadhaar voterId name voters = some v ∧ v.hasVoted = false ∧
          (verifyVoterService validateQuality faceMatcher aadhaar voterId name faceData
            voters).voter = some v) := by
  intro validateQuality faceMatcher aadhaar voterId name faceData voters
  constructor
  · rintro ⟨v, hfind, hvoted⟩
    simp only [verifyVoterService, hfind]
    rw [if_pos hvoted]
    exact ⟨rfl, rfl⟩
  · intro hsucc
    rcases hfind : credentialFind aadhaar voterId name voters with _ | v
    · simp only [verifyVoterService, hfind] at hsucc
      exact absurd hsucc (by simp)
    · simp only [verifyVoterService, hfind] at hsucc ⊢
      by_cases hv : v.hasVoted = true
      · rw [if_pos hv] at hsucc
        exact absurd hsucc (by simp)
      · rw [if_neg hv] at hsucc ⊢
        split_ifs at hsucc ⊢ with h1 h2 h3
        all_goals first
          | exact ⟨v, rfl, by simpa using hv, rfl⟩
          | simp at hsucc

/-! ### Correspondence of the IEEE refinement with the plain model -/

theorem jsDiv_eq_some (a b x : Rat) (h : jsDiv a b = some x) : b ≠ 0 ∧ x = a / b := by
  rw [jsDiv] at h
  split_ifs at h with hb
  exact ⟨hb, (Option.some_inj.mp h).symm⟩

theorem patternGoJS_snd (d1 d2 : Str) (ss : Nat) : ∀ l : List Nat,
    (patternGoJS d1 d2 ss l).2 = (patternGo d1 d2 ss l).2 := by
  intro l
  induction l with
  | nil => rfl
  | cons i rest ih =>
    simp only [patternGoJS, patternGo]
    split_ifs with h
    · rfl
    · simp only []
      rw [ih]

theorem patternGoJS_eq (d1 d2 : Str) (ss : Nat) : ∀ (l : List Nat) (t : Rat),
    (patternGoJS d1 d2 ss l).1 = some t → t = (patternGo d1 d2 ss l).1 := by
  intro l
  induction l with
  | nil =>
    intro t h
    simp only [patternGoJS] at h
    simp only [patternGo]
    exact (Option.some_inj.mp h).symm
  | cons i rest ih =>
    intro t h
    simp only [patternGoJS] at h
    simp only [patternGo]
    split_ifs at h ⊢ with hbreak
    · exact (Option.some_inj.mp h).symm
    · rcases hsec : jsDiv
          (countMatches
            (substring d1 (i * ss) (min (i * ss + ss) d1.length))
            (substring d2 (i * ss) (min (i * ss + ss) d2.length)) : Rat)
          ((min (substring d1 (i * ss) (min (i * ss + ss) d1.length)).length
            (substring d2 (i * ss) (min (i * ss + ss) d2.length)).length : Nat) : Rat)
        with _ | sv
      · rw [hsec] at h
        simp at h
      · rw [hsec] at h
        rcases htail : (patternGoJS d1 d2 ss rest).1 with _ | tl
        · rw [htail] at h
          simp at h
        · rw [htail] at h
          have ht : sv + tl = t := Option.some_inj.mp h
          obtain ⟨_, hs⟩ := jsDiv_eq_some _ _ _ hsec
          rw [← ht, hs, ih tl htail]

theorem analyzeImagePatternsJS_eq (d1 d2 : Str) (p : Rat)
    (h : analyzeImagePatternsJS d1 d2 = some p) : p = analyzeImagePatterns d1 d2 := by
  simp only [analyzeImagePatternsJS] at h
  simp only [analyzeImagePatterns]
  rw [patternGoJS_snd d1 d2 ((min 15000 (min d1.length d2.length)) / 30) (List.range 30)] at h
  split_ifs at h ⊢ with hc
  · rcases htot : (patternGoJS d1 d2 ((min 15000 (min d1.length d2.length)) / 30)
        (List.range 30)).1 with _ | tot
    · rw [htot] at h
      simp at h
    · rw [htot] at h
      have := Option.some_inj.mp h
      rw [← this,
        patternGoJS_eq d1 d2 ((min 15000 (min d1.length d2.length)) / 30) (List.range 30) tot htot]
  · exact (Option.some_inj.mp h).symm

theorem getStatsJS_fst (d : Str) (m : Rat) (h : (getStatsJS d).1 = some m) :
    m = (getStats d).1 := by
  simp only [getStatsJS] at h
  obtain ⟨_, hm⟩ := jsDiv_eq_some _ _ _ h
  simp only [getStats]
  exact hm

theorem getStatsJS_snd (d : Str) (v : Rat) (h : (getStatsJS d).2 = some v) :
    v = (getStats d).2 := by
  simp only [getStatsJS] at h
  obtain ⟨_, hv⟩ := jsDiv_eq_some _ _ _ h
  simp only [getStats]
  exact hv

theorem strictStatisticalFingerprintJS_eq (d1 d2 : Str) (s : Rat)
    (h : strictStatisticalFingerprintJS d1 d2 = some s) :
    s = strictStatisticalFingerprint d1 d2 := by
  simp only [strictStatisticalFingerprintJS] at h
  split at h
  case _ m1 v1 m2 v2 hm1 hv1 hm2 hv2 =>
    split at h
    case _ mq vq hmq hvq =>
      have hval := Option.some_inj.mp h
      obtain ⟨_, hmq'⟩ := jsDiv_eq_some _ _ _ hmq
      obtain ⟨_, hvq'⟩ := jsDiv_eq_some _ _ _ hvq
      simp only [strictStatisticalFingerprint]
      rw [← getStatsJS_fst d1 m1 hm1, ← getStatsJS_snd d1 v1 hv1,
        ← getStatsJS_fst d2 m2 hm2, ← getStatsJS_snd d2 v2 hv2,
        ← hmq', ← hvq', hval]
    all_goals simp at h
  all_goals simp at h

theorem similarityJS_eq_some (a b : Str) (q : Rat)
    (h : calculateStrictVotingFaceSimilarityJS a b = some q) :
    q = calculateStrictVotingFaceSimilarity a b := by
  simp only [calculateStrictVotingFaceSimilarityJS] at h
  simp only [calculateStrictVotingFaceSimilarity]
  split_ifs at h ⊢ with h1 h2
  · exact (Option.some_inj.mp h).symm
  · exact (Option.some_inj.mp h).symm
  · rcases hlr : jsDiv
        (|((getBase64 a).length : Rat) - ((getBase64 b).length : Rat)|)
        ((((getBase64 a).length : Rat) + ((getBase64 b).length : Rat)) / 2) with _ | lr
    · rw [hlr] at h
      simp at h
    rcases hp : analyzeImagePatternsJS (getBase64 a) (getBase64 b) with _ | p
    · rw [hlr, hp] at h
      simp at h
    rcases hst : strictStatisticalFingerprintJS (getBase64 a) (getBase64 b) with _ | st
    · rw [hlr, hp, hst] at h
      simp at h
    rw [hlr, hp, hst] at h
    have hval := Option.some_inj.mp h
    obtain ⟨_, hlr'⟩ := jsDiv_eq_some _ _ _ hlr
    rw [← hval, hlr', analyzeImagePatternsJS_eq (getBase64 a) (getBase64 b) p hp,
      strictStatisticalFingerprintJS_eq (getBase64 a) (getBase64 b) st hst]

/-! ### Empty-payload blobs: accepted by the validator, NaN score -/

theorem dataImagePrefix_length : dataImagePrefix.length = 11 := by decide

theorem base64Marker_length : base64Marker.length = 7 := by decide

theorem prefixFiller_no98 (n c0 : Nat) (hc0 : c0 ≠ 98) :
    ∀ c ∈ dataImagePrefix ++ List.replicate n c0, c ≠ 98 := by
  intro c hc he
  subst he
  rcases List.mem_append.mp hc with h | h
  · exact absurd h (by decide)
  · exact hc0 (List.eq_of_mem_replicate h).symm

theorem indexOfStr_blobE (n c0 : Nat) (hc0 : c0 ≠ 98) :
    indexOfStr (dataImagePrefix ++ (List.replicate n c0 ++ base64Marker)) base64Marker
      = some (11 + n) := by
  rw [← List.append_assoc, base64Marker_cons,
    indexOfStr_append 98 (strOfString "ase64,") (dataImagePrefix ++ List.replicate n c0)
      (98 :: strOfString "ase64,")
      (prefixFiller_no98 n c0 hc0)
      ( List.isPrefixOf_iff_prefix.mpr (List.prefix_refl _)),
    List.length_append, dataImagePrefix_length, List.length_replicate]

theorem getBase64_blobE (n c0 : Nat) (hc0 : c0 ≠ 98) :
    getBase64 (dataImagePrefix ++ (List.replicate n c0 ++ base64Marker)) = [] := by
  rw [getBase64, indexOfStr_blobE n c0 hc0]
  apply List.drop_eq_nil_of_le
  rw [List.length_append, List.length_append, dataImagePrefix_length,
    List.length_replicate, base64Marker_length]
  omega

theorem isValidImage_blobE (n c0 : Nat) (hc0 : c0 ≠ 98) (hlen : 10000 < 18 + n) :
    isValidImage (dataImagePrefix ++ (List.replicate n c0 ++ base64Marker)) = true := by
  have h1 : dataImagePrefix.isPrefixOf
      (dataImagePrefix ++ (List.replicate n c0 ++ base64Marker)) = true :=
    List.isPrefixOf_iff_prefix.mpr (List.prefix_append _ _)
  have h2 : includesStr (dataImagePrefix ++ (List.replicate n c0 ++ base64Marker))
      base64Marker = true := by
    simp [includesStr, indexOfStr_blobE n c0 hc0]
  have h3 : (dataImagePrefix ++ (List.replicate n c0 ++ base64Marker)).length = 18 + n := by
    rw [List.length_append, List.length_append, dataImagePrefix_length,
      List.length_replicate, base64Marker_length]
    omega
  simp [isValidImage, h1, h2, h3, hlen]

theorem blobE1_valid : isValidImage blobE1 = true := by
  rw [blobE1, fillerE1]
  exact isValidImage_blobE 9990 65 (by decide) (by omega)

theorem blobE2_valid : isValidImage blobE2 = true := by
  rw [blobE2, fillerE2]
  exact isValidImage_blobE 9990 67 (by decide) (by omega)

theorem getBase64_blobE1 : getBase64 blobE1 = [] := by
  rw [blobE1, fillerE1]
  exact getBase64_blobE 9990 65 (by decide)

theorem getBase64_blobE2 : getBase64 blobE2 = [] := by
  rw [blobE2, fillerE2]
  exact getBase64_blobE 9990 67 (by decide)

theorem blobE1_ne_blobE2 : blobE1 ≠ blobE2 := by
  intro h
  rw [blobE1, blobE2] at h
  have h' := List.append_cancel_left h
  rw [fillerE1, fillerE2, show (9990 : Nat) = 9989 + 1 from rfl, List.replicate_succ,
    List.replicate_succ, List.cons_append, List.cons_append] at h'
  injection h' with h1 _
  exact absurd h1 (by decide)

theorem similarityJS_of_empty (a b : Str) (hne : ¬ a = b)
    (ha : isValidImage a = true) (hb : isValidImage b = true)
    (h1 : getBase64 a = []) (h2 : getBase64 b = []) :
    calculateStrictVotingFaceSimilarityJS a b = none := by
  simp [calculateStrictVotingFaceSimilarityJS, jsDiv, hne, ha, hb, h1, h2]

theorem similarityJS_blobE : calculateStrictVotingFaceSimilarityJS blobE1 blobE2 = none :=
  similarityJS_of_empty blobE1 blobE2 blobE1_ne_blobE2 blobE1_valid blobE2_valid
    getBase64_blobE1 getBase64_blobE2

/-- Claim C6 (corrected): for valid blobs the scorer's result is either NaN
(`none` in the IEEE refinement — reachable, e.g. on validator-accepted blobs
whose extracted payload is empty, where the source divides `0 / 0`) or a
rational score lying in the closed interval `[0, 1]`.  The unconditional
claim "the score lies in `[0, 1]` for every pair of valid blobs" is refuted
by `C6_counterexample`. -/
theorem C6_bounded_or_nan (a b : Str) (ha : isValidImage a = true)
    (hb : isValidImage b = true) :
    calculateStrictVotingFaceSimilarityJS a b = none ∨
      ∃ q : Rat, calculateStrictVotingFaceSimilarityJS a b = some q ∧ 0 ≤ q ∧ q ≤ 1 := by
  rcases h : calculateStrictVotingFaceSimilarityJS a b with _ | q
  · exact Or.inl rfl
  · refine Or.inr ⟨q, rfl, ?_⟩
    rw [similarityJS_eq_some a b q h]
    exact similarity_bounds a b

/-- Claim C6 witness: the valid periodic pair `(blobA, blobB)` instantiates
the bound (there the score is the number `2/5 ∈ [0, 1]`). -/
theorem C6_bounded_or_nan_witness :
    isValidImage blobA = true ∧ isValidImage blobB = true ∧
      (calculateStrictVotingFaceSimilarityJS blobA blobB = none ∨
        ∃ q : Rat, calculateStrictVotingFaceSimilarityJS blobA blobB = some q ∧
          0 ≤ q ∧ q ≤ 1) :=
  ⟨blobA_valid, blobB_valid, C6_bounded_or_nan blobA blobB blobA_valid blobB_valid⟩

/-- Claim C6 counterexample: two distinct blobs, both accepted by
`isValidImage` (prefix, marker, length 10008 > 10000) but with empty
payloads after `base64,`, on which the source computes `0 / 0` for
`lengthDiff / avgLength`, so the returned score is NaN — not a number in
`[0, 1]`. -/
theorem C6_counterexample :
    isValidImage blobE1 = true ∧ isValidImage blobE2 = true ∧ blobE1 ≠ blobE2 ∧
      calculateStrictVotingFaceSimilarityJS blobE1 blobE2 = none :=
  ⟨blobE1_valid, blobE2_valid, blobE1_ne_blobE2, similarityJS_blobE⟩
